import Mathlib

/-!
Verification development for the `startup` provisioning scripts
(`src/python.py`, `src/startup.py`, `src/startup2.py`, `src/startup3.py`).

The scripts are shallowly embedded: filesystem state is passed explicitly
(lists of existing paths, or finite maps from relative path to byte list),
network and subprocess behaviour is supplied through boolean oracles, and a
Python exception is an explicit `PyErr` value.  Side effects that matter to
the claims (network attempts, sleeps, external install commands, process
launches) are recorded in an event trace.
-/

namespace StartupSpec

/-- Python exceptions raised by the scripts, as an explicit error value.
`transport n` stands for a `urllib` HTTPError or URLError on network attempt
number `n`; `unboundLocal` is the `NameError` or `UnboundLocalError` raised
when `raise last_err` runs with `last_err` never assigned; `runtimeError`,
`cmdFailed`, `fileNotFound` and `osError` mirror `RuntimeError`,
`subprocess.CalledProcessError`, `FileNotFoundError` and `OSError`. -/
inductive PyErr
  | transport (attempt : Nat)
  | unboundLocal
  | runtimeError (msg : String)
  | cmdFailed (cmd : String)
  | fileNotFound (path : String)
  | osError (msg : String)
deriving DecidableEq

/-- Outcome of a Python call: normal return, or an exception propagating. -/
inductive PyResult
  | ok
  | raised (e : PyErr)
deriving DecidableEq

/-- Observable side effects of one package provisioning step:
a network attempt, a `time.sleep` of a given duration, an external install
command (`dpkg`, `apt`, `tar`), a copy of a repo file, or a `subprocess.Popen`
launch of the installed application. -/
inductive Ev
  | net
  | sleepEv (d : Nat)
  | installCmd (c : String)
  | copyEv (src dst : String)
  | launch
deriving DecidableEq

/-- Number of network attempts recorded in a trace. -/
def netCount (tr : List Ev) : Nat :=
  tr.countP (fun e => match e with | Ev.net => true | _ => false)

/-- The sleep durations recorded in a trace, in order. -/
def sleeps (tr : List Ev) : List Nat :=
  tr.filterMap (fun e => match e with | Ev.sleepEv d => some d | _ => none)

/-- Loop body of `download_with_retries` (`src/startup2.py` lines 150 to 176):
`a` is the value of the loop variable `attempt`, `r` is the number of loop
iterations still available out of `range(1, retries + 1)`, and `lastErr` is
the current value of the local variable `last_err` (`none` while it is still
unassigned).  A failed attempt records the error and sleeps `1 + attempt`
seconds; when the iterations are exhausted the final `raise last_err` runs,
which is an unbound local variable error if no attempt was ever made.
The oracle `fail n` says whether network attempt number `n` raises a
transport error. -/
def dwrGo (fail : Nat → Bool) : Nat → Nat → Option PyErr → List Ev × PyResult
  | _, 0, lastErr =>
      ([], PyResult.raised (lastErr.getD PyErr.unboundLocal))
  | a, r + 1, _ =>
      if fail a then
        let rest := dwrGo fail (a + 1) r (some (PyErr.transport a))
        (Ev.net :: Ev.sleepEv (1 + a) :: rest.1, rest.2)
      else
        ([Ev.net], PyResult.ok)

/-- `download_with_retries(url, target_path, retries, ...)` from
`src/startup2.py` lines 142 to 176, abstracted over the url and target:
the loop `for attempt in range(1, retries + 1)` makes at most
`max 0 retries` network attempts, so `retries` is modelled as an `Int`
exactly as a Python caller could pass it. -/
def download_with_retries (retries : Int) (fail : Nat → Bool) :
    List Ev × PyResult :=
  dwrGo fail 1 retries.toNat none

/-- Trace of `k` failed attempts starting at attempt number `a`, followed by
one successful attempt: each failure is a network attempt plus a sleep of
`1 + attempt`, the success is a final network attempt. -/
def failTrace (a : Nat) : Nat → List Ev
  | 0 => [Ev.net]
  | k + 1 => Ev.net :: Ev.sleepEv (1 + a) :: failTrace (a + 1) k

theorem dwrGo_ok (fail : Nat → Bool) :
    ∀ (k a r : Nat) (le : Option PyErr),
      (∀ i, i < k → fail (a + i) = true) → fail (a + k) = false → k < r →
      dwrGo fail a r le = (failTrace a k, PyResult.ok) := by
  intro k
  induction k with
  | zero =>
      intro a r le _ hs hr
      cases r with
      | zero => omega
      | succ r0 =>
          have ha : fail a = false := by simpa using hs
          simp [dwrGo, ha, failTrace]
  | succ k ih =>
      intro a r le hf hs hr
      cases r with
      | zero => omega
      | succ r0 =>
          have ha : fail a = true := by simpa using hf 0 (Nat.succ_pos k)
          have hf1 : ∀ i, i < k → fail (a + 1 + i) = true := by
            intro i hi
            have := hf (i + 1) (by omega)
            have he : a + (i + 1) = a + 1 + i := by omega
            rw [he] at this
            exact this
          have hs1 : fail (a + 1 + k) = false := by
            have he : a + (k + 1) = a + 1 + k := by omega
            rw [he] at hs
            exact hs
          have hrec := ih (a + 1) r0 (some (PyErr.transport a)) hf1 hs1 (by omega)
          simp [dwrGo, ha, hrec, failTrace]

theorem failTrace_netCount : ∀ (k a : Nat), netCount (failTrace a k) = k + 1 := by
  intro k
  induction k with
  | zero => intro a; simp [failTrace, netCount]
  | succ k ih =>
      intro a
      simp [failTrace, netCount, List.countP_cons] at *
      simpa [netCount] using ih (a + 1)

theorem failTrace_sleeps :
    ∀ (k a : Nat), sleeps (failTrace a k) = (List.range k).map (fun i => 1 + (a + i)) := by
  intro k
  induction k with
  | zero => intro a; simp [failTrace, sleeps]
  | succ k ih =>
      intro a
      rw [List.range_succ_eq_map]
      simp only [failTrace, sleeps, List.filterMap_cons, List.map_cons, List.map_map]
      refine congrArg (fun l => (1 + a) :: l) ?_
      have := ih (a + 1)
      simp only [sleeps] at this
      rw [this]
      refine List.map_congr_left ?_
      intro i _
      simp [Function.comp]
      omega

/-- C9: with `retries ≤ 0` the loop body never runs, so no network attempt is
made and the final `raise last_err` refers to the never-assigned local
`last_err`, failing with an unbound local variable error instead of a
transport error. -/
theorem c9_zero_retries_unbound_variable (retries : Int) (h : retries ≤ 0)
    (fail : Nat → Bool) :
    download_with_retries retries fail = ([], PyResult.raised PyErr.unboundLocal) := by
  unfold download_with_retries
  rw [Int.toNat_of_nonpos h]
  rfl

theorem c9_zero_retries_unbound_variable_w :
    (-2 : Int) ≤ 0 ∧
      download_with_retries (-2) (fun _ => true) = ([], PyResult.raised PyErr.unboundLocal) :=
  ⟨by decide, c9_zero_retries_unbound_variable (-2) (by decide) (fun _ => true)⟩

/-- C5 counterexample: with retry budget `retries = 1` and `N = 1` transient
failure followed by an attempt that would succeed, the claim predicts success
with `N + 1 = 2` network attempts; the code makes only `retries = 1` total
attempts (the budget bounds total attempts, not retries after the first), so
the fetch raises the transport error after a single network attempt. -/
theorem c5_budget_bounds_total_attempts :
    download_with_retries 1 (fun i => i == 1) =
      ([Ev.net, Ev.sleepEv 2], PyResult.raised (PyErr.transport 1)) ∧
    ¬ ((download_with_retries 1 (fun i => i == 1)).2 = PyResult.ok ∧
        netCount (download_with_retries 1 (fun i => i == 1)).1 = 2) := by
  constructor
  · rfl
  · intro hcl
    have h2 : (download_with_retries 1 (fun i => i == 1)).2 =
        PyResult.raised (PyErr.transport 1) := rfl
    rw [hcl.1] at h2
    exact PyResult.noConfusion h2

/-- C5 amended: `download_with_retries` with `N` transient transport failures
followed by a successful attempt succeeds with exactly `N + 1` network
attempts, each consecutive pair separated by a non-decreasing (in fact
strictly increasing) sleep of `1 + attempt` seconds — provided
`N + 1 ≤ retries`, because `for attempt in range(1, retries + 1)` makes at
most `retries` total attempts, that is, `retries - 1` retries after the first
attempt. -/
theorem c5_retry_success_attempt_count (retries : Int) (N : Nat) (fail : Nat → Bool)
    (hf : ∀ i, i < N → fail (1 + i) = true) (hs : fail (1 + N) = false)
    (hN : (N : Int) + 1 ≤ retries) :
    download_with_retries retries fail = (failTrace 1 N, PyResult.ok) ∧
    netCount (failTrace 1 N) = N + 1 ∧
    sleeps (failTrace 1 N) = (List.range N).map (fun i => 1 + (1 + i)) ∧
    List.Chain' (fun x y => x ≤ y) (sleeps (failTrace 1 N)) := by
  have hkr : N < retries.toNat := by omega
  refine ⟨?_, failTrace_netCount N 1, failTrace_sleeps N 1, ?_⟩
  · unfold download_with_retries
    exact dwrGo_ok fail N 1 retries.toNat none hf hs hkr
  · rw [failTrace_sleeps N 1]
    have hp : List.Pairwise (fun x y : Nat => x ≤ y)
        ((List.range N).map (fun i => 1 + (1 + i))) := by
      refine List.Pairwise.map _ ?_ (List.pairwise_lt_range N)
      intro a b hab
      omega
    exact hp.chain'

theorem c5_retry_success_attempt_count_w :
    (∀ i, i < 1 → ((fun j => j == 1) (1 + i)) = true) ∧
    ((fun j => j == 1) (1 + 1)) = false ∧
    ((1 : Nat) : Int) + 1 ≤ 3 ∧
    (download_with_retries 3 (fun j => j == 1) = (failTrace 1 1, PyResult.ok) ∧
     netCount (failTrace 1 1) = 1 + 1 ∧
     sleeps (failTrace 1 1) = (List.range 1).map (fun i => 1 + (1 + i)) ∧
     List.Chain' (fun x y => x ≤ y) (sleeps (failTrace 1 1))) :=
  ⟨by decide, by decide, by decide,
    c5_retry_success_attempt_count 3 1 (fun j => j == 1) (by decide) (by decide) (by decide)⟩

/-- Expected SHA-256 of the ProtonVPN repository package
(`PROTONVPN_SHA256` in `src/startup.py` line 34 and `src/startup2.py`
line 34). -/
def PROTONVPN_SHA256 : String :=
  "0b14e71586b22e498eb20926c48c7b434b751149b1f2af9902ef1cfe6b03e180"

/-- `install_protonvpn(downloads_dir)` from `src/startup2.py` lines 412 to
442, abstracted over the bytes the network returns: `fail` is the transport
failure oracle of the inner `download_with_retries` call (fixed
`retries = 3`), `actualDigest` is the value `sha256_of_file(target)` computes
on the downloaded file.  On a digest mismatch the function raises
`RuntimeError` before `dpkg -i` runs; otherwise the repository package is
installed, `apt` runs (the per-package-name try loop and the tray
dependencies are summarised as install commands), and the app launch is
attempted. -/
def install_protonvpn2 (fail : Nat → Bool) (actualDigest : String) :
    List Ev × PyResult :=
  let dl := download_with_retries 3 fail
  match dl.2 with
  | PyResult.raised e => (dl.1, PyResult.raised e)
  | PyResult.ok =>
      if actualDigest = PROTONVPN_SHA256 then
        (dl.1 ++ [Ev.installCmd "dpkg -i", Ev.installCmd "apt update",
                  Ev.installCmd "apt install -y proton-vpn-gnome-desktop",
                  Ev.installCmd "apt install -y tray-deps", Ev.launch],
         PyResult.ok)
      else
        (dl.1, PyResult.raised (PyErr.runtimeError "ProtonVPN checksum mismatch"))

/-- `install_protonvpn(downloads_dir)` from `src/startup.py` lines 343 to
371: the download is a single `urllib.request.urlretrieve` call (one network
attempt, no retry machinery), then the checksum check, then `dpkg` and
`apt`. -/
def install_protonvpn1 (actualDigest : String) : List Ev × PyResult :=
  if actualDigest = PROTONVPN_SHA256 then
    ([Ev.net, Ev.installCmd "dpkg -i", Ev.installCmd "apt update",
      Ev.installCmd "apt install -y proton-vpn-gnome-desktop",
      Ev.installCmd "apt install -y tray-deps", Ev.launch],
     PyResult.ok)
  else
    ([Ev.net],
     PyResult.raised
       (PyErr.runtimeError "ProtonVPN .deb checksum does not match expected value"))

/-- C1: when the computed SHA-256 of the downloaded ProtonVPN package differs
from the mandatory expected digest, both variants raise a fatal
`RuntimeError` before any external install command runs, and the fetch is not
re-attempted: with the transport succeeding, exactly one network attempt
appears in the trace and no install command does. -/
theorem c1_digest_mismatch_aborts (actual : String)
    (h : actual ≠ PROTONVPN_SHA256) :
    install_protonvpn2 (fun _ => false) actual =
      ([Ev.net], PyResult.raised (PyErr.runtimeError "ProtonVPN checksum mismatch")) ∧
    install_protonvpn1 actual =
      ([Ev.net],
       PyResult.raised
         (PyErr.runtimeError "ProtonVPN .deb checksum does not match expected value")) ∧
    netCount (install_protonvpn2 (fun _ => false) actual).1 = 1 ∧
    (∀ c, Ev.installCmd c ∉ (install_protonvpn2 (fun _ => false) actual).1) := by
  have hdl : download_with_retries 3 (fun _ => false) = ([Ev.net], PyResult.ok) := rfl
  have h2 : install_protonvpn2 (fun _ => false) actual =
      ([Ev.net], PyResult.raised (PyErr.runtimeError "ProtonVPN checksum mismatch")) := by
    simp [install_protonvpn2, hdl, h]
  refine ⟨h2, ?_, ?_, ?_⟩
  · simp [install_protonvpn1, h]
  · rw [h2]
    rfl
  · intro c
    rw [h2]
    simp

theorem c1_digest_mismatch_aborts_w :
    "deadbeef" ≠ PROTONVPN_SHA256 ∧
    (install_protonvpn2 (fun _ => false) "deadbeef" =
      ([Ev.net], PyResult.raised (PyErr.runtimeError "ProtonVPN checksum mismatch")) ∧
     install_protonvpn1 "deadbeef" =
      ([Ev.net],
       PyResult.raised
         (PyErr.runtimeError "ProtonVPN .deb checksum does not match expected value")) ∧
     netCount (install_protonvpn2 (fun _ => false) "deadbeef").1 = 1 ∧
     (∀ c, Ev.installCmd c ∉ (install_protonvpn2 (fun _ => false) "deadbeef").1)) :=
  ⟨by decide, c1_digest_mismatch_aborts "deadbeef" (by decide)⟩

/-- `os.path.exists(p)` over an explicit filesystem given as the list of
currently existing paths. -/
def pathExistsB (fs : List String) (p : String) : Bool :=
  fs.contains p

/-- Add a path to the filesystem (as a set of paths). -/
def fsAdd (fs : List String) (p : String) : List String :=
  if fs.contains p then fs else fs.concat p

/-- The `while os.path.exists(candidate)` loop of `make_unique_path`
(`src/startup.py` lines 129 to 131): `counter` is the current counter value,
the candidate is `path_base.timestamp.counter`, and `fuel` bounds the number
of iterations (the real loop terminates because the filesystem is finite and
the candidates for distinct counters are distinct strings; `fs.length + 1`
iterations always suffice). -/
def mupLoop (fs : List String) (path_base : String) (ts : Nat) :
    Nat → Nat → Option String
  | _, 0 => none
  | counter, fuel + 1 =>
      let candidate := path_base ++ "." ++ toString ts ++ "." ++ toString counter
      if pathExistsB fs candidate then mupLoop fs path_base ts (counter + 1) fuel
      else some candidate

/-- `make_unique_path(path_base)` from `src/startup.py` lines 119 to 132
(identical in `src/startup2.py` lines 121 to 131): `ts` is the value of
`int(time.time())` at the call. -/
def make_unique_path (fs : List String) (path_base : String) (ts : Nat) :
    Option String :=
  if pathExistsB fs path_base then
    let candidate := path_base ++ "." ++ toString ts
    if pathExistsB fs candidate then mupLoop fs path_base ts 1 (fs.length + 1)
    else some candidate
  else some path_base

/-- One backup step of `backup_and_copy_grub` or `backup_and_copy_wallpapers`
in `src/startup.py`: compute a unique backup destination for `base` with
`make_unique_path`, then `shutil.move` the original there, so the filesystem
loses `orig` and gains the returned backup path. -/
def moveBackup (fs : List String) (orig base : String) (ts : Nat) :
    Option (String × List String) :=
  match make_unique_path fs base ts with
  | some p => some (p, fsAdd (fs.erase orig) p)
  | none => none

theorem mupLoop_fresh (fs : List String) (path_base : String) (ts : Nat) :
    ∀ (fuel counter : Nat) (p : String),
      mupLoop fs path_base ts counter fuel = some p → pathExistsB fs p = false := by
  intro fuel
  induction fuel with
  | zero => intro counter p h; exact absurd h (by simp [mupLoop])
  | succ fuel ih =>
      intro counter p h
      rw [mupLoop] at h
      by_cases hc : pathExistsB fs (path_base ++ "." ++ toString ts ++ "." ++ toString counter) = true
      · rw [if_pos hc] at h
        exact ih (counter + 1) p h
      · rw [if_neg hc] at h
        cases h
        simpa using hc

theorem make_unique_path_fresh (fs : List String) (path_base : String) (ts : Nat)
    (p : String) (h : make_unique_path fs path_base ts = some p) :
    pathExistsB fs p = false := by
  rw [make_unique_path] at h
  by_cases hb : pathExistsB fs path_base = true
  · rw [if_pos hb] at h
    by_cases hc : pathExistsB fs (path_base ++ "." ++ toString ts) = true
    · rw [if_pos hc] at h
      exact mupLoop_fresh fs path_base ts (fs.length + 1) 1 p h
    · rw [if_neg hc] at h
      cases h
      simpa using hc
  · rw [if_neg hb] at h
    cases h
    simpa using hb

theorem pathExistsB_fsAdd (fs : List String) (p : String) :
    pathExistsB (fsAdd fs p) p = true := by
  by_cases h : p ∈ fs
  · simp [fsAdd, pathExistsB, h]
  · simp [fsAdd, pathExistsB, h, List.concat_eq_append]

/-- C2 amended: in the `make_unique_path` variants (`src/startup.py`,
`src/startup2.py`) every backup performed goes to a path that did not exist
on the filesystem before the call, and two backups performed one after the
other in the same run never receive the same path: the first backup path is
on the filesystem when the second is chosen. -/
theorem c2_unique_backup_paths (fs : List String) (orig base : String) (ts : Nat)
    (p1 : String) (fs1 : List String) (orig2 base2 : String) (ts2 : Nat)
    (p2 : String) (fs2 : List String)
    (h1 : moveBackup fs orig base ts = some (p1, fs1))
    (h2 : moveBackup fs1 orig2 base2 ts2 = some (p2, fs2)) :
    pathExistsB fs p1 = false ∧ pathExistsB fs1 p2 = false ∧ p1 ≠ p2 := by
  rw [moveBackup] at h1
  rw [moveBackup] at h2
  cases hq1 : make_unique_path fs base ts with
  | none =>
      rw [hq1] at h1
      exact absurd h1 (by simp)
  | some q1 =>
      rw [hq1] at h1
      have h1p := Option.some.inj h1
      have hp1 : q1 = p1 := congrArg Prod.fst h1p
      have hfs1 : fsAdd (fs.erase orig) q1 = fs1 := congrArg Prod.snd h1p
      cases hq2 : make_unique_path fs1 base2 ts2 with
      | none =>
          rw [hq2] at h2
          exact absurd h2 (by simp)
      | some q2 =>
          rw [hq2] at h2
          have h2p := Option.some.inj h2
          have hp2 : q2 = p2 := congrArg Prod.fst h2p
          have hf1 : pathExistsB fs p1 = false := by
            rw [← hp1]
            exact make_unique_path_fresh fs base ts q1 hq1
          have hf2 : pathExistsB fs1 p2 = false := by
            rw [← hp2]
            exact make_unique_path_fresh fs1 base2 ts2 q2 hq2
          refine ⟨hf1, hf2, ?_⟩
          intro he
          have hin : pathExistsB fs1 p2 = true := by
            rw [← he, ← hfs1, ← hp1]
            exact pathExistsB_fsAdd (fs.erase orig) q1
          rw [hin] at hf2
          exact Bool.noConfusion hf2

theorem c2_unique_backup_paths_w :
    moveBackup ["/k"] "/k" "/k.b" 1 = some ("/k.b", ["/k.b"]) ∧
    moveBackup ["/k.b"] "/k" "/k.b" 2 = some ("/k.b.2", ["/k.b", "/k.b.2"]) ∧
    (pathExistsB ["/k"] "/k.b" = false ∧ pathExistsB ["/k.b"] "/k.b.2" = false ∧
      "/k.b" ≠ "/k.b.2") :=
  ⟨by decide, by decide,
    c2_unique_backup_paths ["/k"] "/k" "/k.b" 1 "/k.b" ["/k.b"] "/k" "/k.b" 2
      "/k.b.2" ["/k.b", "/k.b.2"] (by decide) (by decide)⟩

/-- `os.path.basename`, as used by `shutil.move` when the destination is an
existing directory. -/
def baseName (s : String) : String :=
  (s.splitOn "/").getLastD s

/-- Result of the modelled `shutil.move`. -/
inductive MoveResult
  | moved (realDst : String) (files dirs : List String)
  | failed (e : PyErr)
deriving DecidableEq

/-- `shutil.move(src, dst)` over an explicit filesystem split into plain
files and directories: if `dst` is an existing directory the real
destination is `dst/basename(src)`; moving a directory onto an existing path
raises `shutil.Error`; renaming a file onto an existing directory raises
`IsADirectoryError`; renaming a file onto an existing file silently
overwrites it (plain `os.rename` on one filesystem). -/
def shutil_move (files dirs : List String) (src dst : String) : MoveResult :=
  let realDst := if pathExistsB dirs dst then dst ++ "/" ++ baseName src else dst
  if pathExistsB dirs src then
    if pathExistsB files realDst || pathExistsB dirs realDst then
      MoveResult.failed (PyErr.runtimeError "Destination path already exists")
    else
      MoveResult.moved realDst files (fsAdd (dirs.erase src) realDst)
  else
    if pathExistsB dirs realDst then
      MoveResult.failed (PyErr.osError "IsADirectoryError")
    else
      MoveResult.moved realDst (fsAdd (files.erase src) realDst) dirs

/-- Outcome of `backup_file` from `src/python.py`. -/
inductive BackupOutcome
  | noBackup
  | backedUp (realDst : String) (files dirs : List String)
  | failed (e : PyErr)
deriving DecidableEq

/-- `backup_file(src, dest)` from `src/python.py` lines 28 to 32: if `src`
exists it is moved to the fixed destination `dest` with `shutil.move`; there
is no collision disambiguation of any kind. -/
def backup_file (files dirs : List String) (src dst : String) : BackupOutcome :=
  if pathExistsB (files ++ dirs) src then
    match shutil_move files dirs src dst with
    | MoveResult.moved realDst files2 dirs2 => BackupOutcome.backedUp realDst files2 dirs2
    | MoveResult.failed e => BackupOutcome.failed e
  else BackupOutcome.noBackup

/-- C2 counterexample: `src/python.py` line 57 calls
`backup_file("/boot/grub/grub.cfg", "/boot/grub/grub.cfg.b")` with a fixed
destination.  On a filesystem where the destination `/boot/grub/grub.cfg`
exists and `/boot/grub/grub.cfg.b` is left over from an earlier run, the
backup succeeds onto the path `/boot/grub/grub.cfg.b`, which DID exist on the
filesystem before the call (the earlier backup at that path is silently
overwritten), refuting the claim that the backup path never pre-exists. -/
theorem c2_fixed_backup_path_reused :
    backup_file ["/boot/grub/grub.cfg", "/boot/grub/grub.cfg.b"] []
        "/boot/grub/grub.cfg" "/boot/grub/grub.cfg.b" =
      BackupOutcome.backedUp "/boot/grub/grub.cfg.b" ["/boot/grub/grub.cfg.b"] [] ∧
    ¬ (pathExistsB ["/boot/grub/grub.cfg", "/boot/grub/grub.cfg.b"]
          "/boot/grub/grub.cfg.b" = false) := by
  exact ⟨by decide, by decide⟩

/-- Session-level events of `main`: a package install step is entered, a
package install step returns normally, a package whose failure was swallowed
is recorded (only possible in the `src/python.py` variant), the downloads
cleanup step runs, or the top-level `except` handler logs the fatal error and
exits. -/
inductive SEv
  | attempt (p : String)
  | done (p : String)
  | failedPkg (p : String)
  | cleanup
  | fatalLog
deriving DecidableEq

/-- The packages provisioned by `main` in `src/startup.py` lines 478 to 482
and `src/startup2.py` lines 534 to 538, in order. -/
def packages : List String :=
  ["telegram", "protonvpn", "rustscan", "vscode", "brave"]

/-- The straight-line package install calls of `main` in `src/startup.py`
(lines 478 to 482): each call either returns normally or raises; the calls
are inside one `try` block with no per-package handler, so the first raising
call ends the sequence.  `fails p` says whether provisioning package `p`
raises (for example its external install command exits non-zero, making
`run_cmd` raise `CalledProcessError`).  Returns the event trace and whether
the whole sequence completed. -/
def provisionPhase (fails : String → Bool) : List String → List SEv × Bool
  | [] => ([], true)
  | p :: rest =>
      if fails p then ([SEv.attempt p], false)
      else
        let r := provisionPhase fails rest
        (SEv.attempt p :: SEv.done p :: r.1, r.2)

/-- The package-provisioning and cleanup portion of `main` in
`src/startup.py` lines 478 to 499 (same structure in `src/startup2.py` lines
534 to 553): the install calls and `cleanup_downloads` are sequential inside
a single `try`; an exception anywhere jumps straight to the `except` handler,
which logs and calls `sys.exit(1)` without running the remaining steps. -/
def mainSession (fails : String → Bool) : List SEv :=
  let r := provisionPhase fails packages
  if r.2 then r.1 ++ [SEv.cleanup] else r.1 ++ [SEv.fatalLog]

/-- C3 counterexample: if the first package (telegram) fails, the exception
propagates out of the `try` block, so the subsequent independent package
(protonvpn) is never attempted — the session aborts rather than recording the
failure and continuing. -/
theorem c3_failure_aborts_session :
    mainSession (fun s => s == "telegram") = [SEv.attempt "telegram", SEv.fatalLog] ∧
    SEv.attempt "protonvpn" ∉ mainSession (fun s => s == "telegram") := by
  exact ⟨by decide, by decide⟩

/-- The packages provisioned by `main` in `src/python.py` lines 184 to 188,
in order. -/
def pyPackages : List String :=
  ["brave", "telegram", "protonvpn", "rustscan", "vscode"]

/-- The package install calls of `main` in `src/python.py`: there the `run`
helper (lines 13 to 22) catches `CalledProcessError` itself, prints the
failure and returns `None`, so a failing external install command never
raises out of an install function and execution proceeds to the next
package; the failure is only recorded in the printed output. -/
def pyProvision (fails : String → Bool) : List String → List SEv
  | [] => []
  | p :: rest =>
      SEv.attempt p ::
        (if fails p then SEv.failedPkg p else SEv.done p) :: pyProvision fails rest

/-- C3 amended: only in the `src/python.py` variant does a package whose
install command fails leave the rest of the session running — every package
in the list is attempted no matter which install commands fail.  In
`src/startup.py` and `src/startup2.py` a package failure aborts the session
(see the counterexample). -/
theorem c3_python_variant_continues (fails : String → Bool) (p : String)
    (hp : p ∈ pyPackages) :
    SEv.attempt p ∈ pyProvision fails pyPackages := by
  have hgen : ∀ l : List String, p ∈ l → SEv.attempt p ∈ pyProvision fails l := by
    intro l
    induction l with
    | nil => intro h; cases h
    | cons q rest ih =>
        intro h
        rw [pyProvision]
        rcases List.mem_cons.mp h with h | h
        · rw [h]
          exact List.mem_cons_self _ _
        · exact List.mem_cons_of_mem _ (List.mem_cons_of_mem _ (ih h))
  exact hgen pyPackages hp

theorem c3_python_variant_continues_w :
    "vscode" ∈ pyPackages ∧
      SEv.attempt "vscode" ∈ pyProvision (fun _ => true) pyPackages :=
  ⟨by decide, c3_python_variant_continues (fun _ => true) "vscode" (by decide)⟩

/-- C7 counterexample: a failure in one package (vscode) during the
provisioning phase skips `cleanup_downloads` entirely — the phase was entered
(telegram was attempted) yet no cleanup event occurs, because the cleanup
call sits in the same `try` block rather than in a `finally`. -/
theorem c7_cleanup_skipped_on_failure :
    SEv.cleanup ∉ mainSession (fun s => s == "vscode") ∧
    SEv.attempt "telegram" ∈ mainSession (fun s => s == "vscode") := by
  exact ⟨by decide, by decide⟩

theorem provisionPhase_no_cleanup (fails : String → Bool) :
    ∀ ps : List String, SEv.cleanup ∉ (provisionPhase fails ps).1 := by
  intro ps
  induction ps with
  | nil => simp [provisionPhase]
  | cons p rest ih =>
      by_cases h : fails p = true
      · simp [provisionPhase, h]
      · simp only [Bool.not_eq_true] at h
        simp [provisionPhase, h, ih]

theorem provisionPhase_ok_iff (fails : String → Bool) :
    ∀ ps : List String,
      (provisionPhase fails ps).2 = true ↔ ∀ p ∈ ps, fails p = false := by
  intro ps
  induction ps with
  | nil => simp [provisionPhase]
  | cons p rest ih =>
      by_cases h : fails p = true
      · simp [provisionPhase, h]
      · simp only [Bool.not_eq_true] at h
        simp [provisionPhase, h, ih]

/-- C7 amended: the downloads cleanup runs exactly when every package of the
provisioning phase succeeds; any package failure makes the exception skip the
cleanup call (the code has no `finally`), in both `src/startup.py` and
`src/startup2.py`. -/
theorem c7_cleanup_iff_all_ok (fails : String → Bool) :
    SEv.cleanup ∈ mainSession fails ↔ ∀ p ∈ packages, fails p = false := by
  rw [mainSession]
  by_cases h : (provisionPhase fails packages).2 = true
  · rw [if_pos h]
    simp only [List.mem_append, List.mem_singleton]
    constructor
    · intro _
      exact (provisionPhase_ok_iff fails packages).mp h
    · intro _
      exact Or.inr trivial
  · have hb : (provisionPhase fails packages).2 = false := by
      revert h
      cases (provisionPhase fails packages).2 <;> simp
    rw [hb]
    simp only [Bool.false_eq_true, if_false, List.mem_append, List.mem_singleton]
    constructor
    · intro hc
      rcases hc with hc | hc
      · exact absurd hc (provisionPhase_no_cleanup fails packages)
      · exact absurd hc (by simp)
    · intro hall
      exact absurd ((provisionPhase_ok_iff fails packages).mpr hall) h

/-- A directory tree as a finite map from relative file path to file bytes. -/
abbrev DirTree := List (String × List Nat)

/-- Whether the tree contains an entry at the given relative path. -/
def treeHas (t : DirTree) (name : String) : Bool :=
  t.any (fun e => e.1 == name)

/-- `shutil.copytree(src, dst, dirs_exist_ok=True)` (used by
`src/python.py` line 37, `src/startup.py` lines 198 and 210, and
`src/startup2.py` lines 228 and 236): every entry of the source is copied
into the destination, overwriting an entry of the same name; entries already
present at the destination that do not occur in the source are left in
place, so the result is a merge of the two trees with the source winning. -/
def copytree_dirs_exist_ok (src dst : DirTree) : DirTree :=
  src ++ dst.filter (fun e => !(treeHas src e.1))

/-- A filesystem node: a plain file with its bytes, or a directory tree. -/
inductive FsNode
  | file (bytes : List Nat)
  | dir (t : DirTree)
deriving DecidableEq

/-- `copy_file(src, dest)` from `src/python.py` lines 34 to 39: a directory
source is copied with `shutil.copytree(..., dirs_exist_ok=True)` into
whatever is at the destination; a file source is copied with `shutil.copy2`,
which replaces the destination content with the source bytes. -/
def copy_file (src : FsNode) (dstBefore : Option FsNode) : FsNode :=
  match src with
  | FsNode.dir t =>
      FsNode.dir (copytree_dirs_exist_ok t
        (match dstBefore with
         | some (FsNode.dir d) => d
         | _ => []))
  | FsNode.file b => FsNode.file b

/-- C4 counterexample: `copy_file` on a directory source with an existing
destination completes successfully, yet the destination afterwards still
holds its pre-existing extra entry, so it is not byte-identical to the
source tree (this is exactly the situation of `src/python.py` line 51, where
the kali theme is merge-copied into `/boot/grub/themes/`, which already
contains the `backup` subtree created on line 46). -/
theorem c4_merge_keeps_extra_entries :
    copy_file (FsNode.dir [("theme.txt", [1])])
        (some (FsNode.dir [("backup/kali-old.b", [9])])) =
      FsNode.dir [("theme.txt", [1]), ("backup/kali-old.b", [9])] ∧
    copy_file (FsNode.dir [("theme.txt", [1])])
        (some (FsNode.dir [("backup/kali-old.b", [9])])) ≠
      FsNode.dir [("theme.txt", [1])] := by
  exact ⟨by decide, by decide⟩

/-- The kali-theme step of `backup_and_copy_grub` in `src/startup2.py` lines
218 to 228: if `/boot/grub/themes/kali` exists it is first moved away to a
unique backup path, so the later `shutil.copytree` into
`/boot/grub/themes/kali` always copies into an absent destination; the
result is the pair (tree moved to backup, tree now at the destination). -/
def backup_and_copy_kali2 (boot_kali : Option DirTree) (repo_kali : DirTree) :
    Option DirTree × DirTree :=
  match boot_kali with
  | some old => (some old, copytree_dirs_exist_ok repo_kali [])
  | none => (none, copytree_dirs_exist_ok repo_kali [])

/-- C4 amended: after a successful install the destination holds a
byte-identical copy of every source entry; full byte-identity of the
destination tree holds whenever the prior destination was absent or was
first moved aside, which the grub and theme flows of `src/startup.py`,
`src/startup2.py` and `src/startup3.py` guarantee by backing the old tree up
before copying (and file installs always replace the destination content
outright).  When an existing destination directory is merge-copied into
without that prior move (`src/python.py` `copy_file`), destination-only
entries survive and byte-identity can fail (see the counterexample). -/
theorem c4_install_after_backup_identical (boot_kali : Option DirTree)
    (repo_kali : DirTree) (b : List Nat) :
    (backup_and_copy_kali2 boot_kali repo_kali).2 = repo_kali ∧
    (backup_and_copy_kali2 boot_kali repo_kali).1 = boot_kali ∧
    copy_file (FsNode.file b) none = FsNode.file b := by
  cases boot_kali <;>
    simp [backup_and_copy_kali2, copytree_dirs_exist_ok, copy_file]

/-- The wallpaper resource catalog `WALLPAPER_FILES` of `src/startup.py`
lines 40 to 47: pairs of source file name in the repo wallpaper folder and
absolute destination. -/
def WALLPAPER_FILES : List (String × String) :=
  [("20-wallpaper.svg", "/usr/share/backgrounds/kali/login.svg"),
   ("12-wallpaper.png", "/usr/share/backgrounds/kali/kali-maze-16x9.jpg"),
   ("1-wallpaper.png", "/usr/share/backgrounds/kali/kali-tiles-16x9.jpg"),
   ("2-wallpaper.png", "/usr/share/backgrounds/kali/kali-waves-16x9.png"),
   ("3-wallpaper.png", "/usr/share/backgrounds/kali/kali-oleo-16x9.png"),
   ("4-wallpaper.png", "/usr/share/backgrounds/kali/kali-tiles-purple-16x9.jpg")]

/-- The copy loop of `backup_and_copy_wallpapers` in `src/startup.py` lines
233 to 239 (identical in `src/startup2.py` lines 257 to 263): for each
catalog pair, a missing source file raises `FileNotFoundError` on the spot,
aborting the function; otherwise the file is copied and the loop goes on.
`repoHas` says which source names exist in the repo wallpaper folder. -/
def copy_wallpapers1 (repoHas : String → Bool) :
    List (String × String) → List Ev × PyResult
  | [] => ([], PyResult.ok)
  | pr :: rest =>
      if repoHas pr.1 then
        let r := copy_wallpapers1 repoHas rest
        (Ev.copyEv pr.1 pr.2 :: r.1, r.2)
      else ([], PyResult.raised (PyErr.fileNotFound pr.1))

/-- C6 amended: in `src/startup.py` and `src/startup2.py` a cataloged
wallpaper whose source is absent from the working copy makes the install
raise `FileNotFoundError` — the resource is never skipped.  (The explicit
checks for `grub.cfg` and the kali theme behave the same way, and in
`src/startup3.py` the grub step also raises since `shutil.copy` itself fails
on a missing source; only the `src/startup3.py` wallpaper step deviates, see
the counterexample.) -/
theorem c6_missing_source_fatal (repoHas : String → Bool)
    (h : ∃ pr ∈ WALLPAPER_FILES, repoHas pr.1 = false) :
    ∃ s, (copy_wallpapers1 repoHas WALLPAPER_FILES).2 =
      PyResult.raised (PyErr.fileNotFound s) := by
  have hgen : ∀ l : List (String × String),
      (∃ pr ∈ l, repoHas pr.1 = false) →
      ∃ s, (copy_wallpapers1 repoHas l).2 = PyResult.raised (PyErr.fileNotFound s) := by
    intro l
    induction l with
    | nil => intro hex; rcases hex with ⟨pr, hpr, _⟩; cases hpr
    | cons q rest ih =>
        intro hex
        by_cases hq : repoHas q.1 = true
        · rcases hex with ⟨pr, hpr, hmiss⟩
          rcases List.mem_cons.mp hpr with he | hm
          · rw [he] at hmiss
            rw [hq] at hmiss
            cases hmiss
          · rcases ih ⟨pr, hm, hmiss⟩ with ⟨s, hs⟩
            refine ⟨s, ?_⟩
            simp [copy_wallpapers1, hq, hs]
        · simp only [Bool.not_eq_true] at hq
          refine ⟨q.1, ?_⟩
          simp [copy_wallpapers1, hq]
  exact hgen WALLPAPER_FILES h

theorem c6_missing_source_fatal_w :
    (∃ pr ∈ WALLPAPER_FILES, (fun _ : String => false) pr.1 = false) ∧
    ∃ s, (copy_wallpapers1 (fun _ => false) WALLPAPER_FILES).2 =
      PyResult.raised (PyErr.fileNotFound s) :=
  ⟨by decide, c6_missing_source_fatal (fun _ => false) (by decide)⟩

/-- Events of the `src/startup3.py` wallpaper step. -/
inductive W3Ev
  | backedUp (orig : String)
  | copied (src orig : String)
  | warnMissing (src : String)
deriving DecidableEq

/-- The `wallpaper_map` table of `src/startup3.py` lines 90 to 98: original
system file name mapped to the repo source file that replaces it. -/
def wallpaper_map3 : List (String × String) :=
  [("kali-maze-16x9.jpg", "12-wallpaper.png"),
   ("kali-tiles-16x9.jpg", "1-wallpaper.png"),
   ("kali-waves-16x9.png", "2-wallpaper.png"),
   ("kali-oleo-16x9.png", "3-wallpaper.png"),
   ("kali-tiles-purple-16x9.jpg", "4-wallpaper.png"),
   ("login.svg", "20-wallpaper.svg"),
   ("login-blurred", "2-wallpaper.png")]

/-- Loop body of `backup_and_copy_wallpapers` in `src/startup3.py` lines 101
to 114: back the original up if it exists, then copy the repo source over it
if the source exists — and otherwise only `logging.warning` that the source
was not found, continuing with the next entry. -/
def bacw3Go (sysHas repoHas : String → Bool) :
    List (String × String) → List W3Ev
  | [] => []
  | pr :: rest =>
      (if sysHas pr.1 then [W3Ev.backedUp pr.1] else []) ++
      (if repoHas pr.2 then [W3Ev.copied pr.2 pr.1] else [W3Ev.warnMissing pr.2]) ++
      bacw3Go sysHas repoHas rest

/-- `backup_and_copy_wallpapers(repo_path)` from `src/startup3.py` lines 82
to 114: the function contains no `raise` for a missing source and always
returns normally. -/
def backup_and_copy_wallpapers3 (sysHas repoHas : String → Bool) :
    List W3Ev × PyResult :=
  (bacw3Go sysHas repoHas wallpaper_map3, PyResult.ok)

/-- C6 counterexample: with the repo wallpaper `2-wallpaper.png` absent from
the working copy, the `src/startup3.py` wallpaper install returns normally
(no error is raised), merely logs a warning, and never copies the two
resources that depend on that source — the missing source is skipped, not
fatal. -/
theorem c6_missing_wallpaper_skipped :
    (backup_and_copy_wallpapers3 (fun _ => false)
        (fun s => !(s == "2-wallpaper.png"))).2 = PyResult.ok ∧
    W3Ev.warnMissing "2-wallpaper.png" ∈
      (backup_and_copy_wallpapers3 (fun _ => false)
        (fun s => !(s == "2-wallpaper.png"))).1 ∧
    W3Ev.copied "2-wallpaper.png" "kali-waves-16x9.png" ∉
      (backup_and_copy_wallpapers3 (fun _ => false)
        (fun s => !(s == "2-wallpaper.png"))).1 := by
  exact ⟨by decide, by decide, by decide⟩

/-- The tail of `install_telegram(downloads_dir)` from `src/startup.py`
lines 321 to 340, entered after the archive link was found: the archive is
downloaded with a single `urlretrieve` call, extracted with `tar` into
`/opt/Telegram`, and then the binary is launched with a bare
`subprocess.Popen` call that is NOT inside any `try` block — if the launched
process fails to start, the `OSError` from `Popen` propagates out of
`install_telegram`.  `binExists` says whether `/opt/Telegram/Telegram`
exists after extraction, `launchRaises` whether `Popen` raises. -/
def install_telegram1 (binExists launchRaises : Bool) : List Ev × PyResult :=
  let pre := [Ev.net, Ev.net, Ev.installCmd "tar -xf"]
  if binExists then
    if launchRaises then
      (pre ++ [Ev.launch],
       PyResult.raised (PyErr.osError "Popen could not start /opt/Telegram/Telegram"))
    else (pre ++ [Ev.launch], PyResult.ok)
  else
    (pre, PyResult.raised (PyErr.fileNotFound "/opt/Telegram/Telegram"))

/-- C8 counterexample: in `src/startup.py` `install_telegram`, with the
download and the `tar` install both succeeding and the binary present, a
post-install launch failure (`Popen` raising) propagates out of the install
function — the package provisioning fails instead of being logged only. -/
theorem c8_unguarded_launch_fatal :
    install_telegram1 true true =
      ([Ev.net, Ev.net, Ev.installCmd "tar -xf", Ev.launch],
       PyResult.raised (PyErr.osError "Popen could not start /opt/Telegram/Telegram")) ∧
    (install_telegram1 true true).2 ≠ PyResult.ok := by
  exact ⟨by decide, by decide⟩

/-- `install_vscode(downloads_dir)` from `src/startup2.py` lines 458 to 470:
download with retries, `dpkg -i` with an `apt-get install -f` fallback on
failure, then a best-effort `subprocess.Popen` launch wrapped in
`try ... except Exception`, whose failure is only `logger.debug`-ged — the
`launchRaises` oracle therefore never influences the returned result. -/
def install_vscode2 (fail : Nat → Bool) (dpkgFails aptFixFails launchRaises : Bool) :
    List Ev × PyResult :=
  let dl := download_with_retries 3 fail
  match dl.2 with
  | PyResult.raised e => (dl.1, PyResult.raised e)
  | PyResult.ok =>
      if dpkgFails then
        if aptFixFails then
          (dl.1 ++ [Ev.installCmd "dpkg -i code.deb",
                    Ev.installCmd "apt-get install -f -y"],
           PyResult.raised (PyErr.cmdFailed "apt-get install -f -y"))
        else
          (dl.1 ++ [Ev.installCmd "dpkg -i code.deb",
                    Ev.installCmd "apt-get install -f -y", Ev.launch],
           PyResult.ok)
      else
        (dl.1 ++ [Ev.installCmd "dpkg -i code.deb", Ev.launch], PyResult.ok)

/-- C8 amended: for the provisioning paths whose launch is wrapped in a
`try`/`except` (vscode and protonvpn in both scripts, telegram in
`src/startup2.py`), a failure of the best-effort post-install launch never
makes provisioning fail: with download and install commands succeeding, the
launch is attempted and the step returns success whether or not `Popen`
raises.  The one deviation is the unguarded `Popen` in `src/startup.py`
`install_telegram` (see the counterexample). -/
theorem c8_vscode_launch_nonfatal (launchRaises : Bool) :
    (install_vscode2 (fun _ => false) false false launchRaises).2 = PyResult.ok ∧
    Ev.launch ∈ (install_vscode2 (fun _ => false) false false launchRaises).1 := by
  cases launchRaises <;> exact ⟨by decide, by decide⟩

/-- The incremental-hash object `hashlib.sha256()`: its externally visible
state is exactly the sequence of bytes fed to it so far, and its hex digest
is a pure function of that sequence (the digest function itself is an
external collaborator, so every theorem below is parametric in it). -/
structure HashCtx where
  fed : List Nat
deriving DecidableEq

/-- `h.update(chunk)`: the documented behaviour of `hashlib` update is that
feeding chunks one by one is the same as feeding their concatenation. -/
def hashUpdate (h : HashCtx) (chunk : List Nat) : HashCtx :=
  HashCtx.mk (h.fed ++ chunk)

/-- `h.hexdigest()` for an arbitrary digest function. -/
def hexdigestOf (digestFn : List Nat → String) (h : HashCtx) : String :=
  digestFn h.fed

/-- The chunked read loop `iter(lambda: f.read(chunk_size), b"")` of
`sha256_of_file` (`src/startup.py` lines 137 to 139), with the file content
as an explicit byte list: each `read` returns the next `c` bytes and the
loop stops at the first empty read (immediately if `c = 0`, since
`f.read(0)` returns the empty bytes object).  `fuel` bounds the iterations;
`content.length` iterations always suffice because every non-final read
consumes at least one byte when `c > 0`. -/
def readChunksAux (c : Nat) : Nat → List Nat → List (List Nat)
  | 0, _ => []
  | _, [] => []
  | fuel + 1, content =>
      if c = 0 then []
      else content.take c :: readChunksAux c fuel (content.drop c)

/-- The list of chunks `f.read(chunk_size)` yields for a file holding
`content`. -/
def readChunks (c : Nat) (content : List Nat) : List (List Nat) :=
  readChunksAux c content.length content

/-- `sha256_of_file(path, chunk_size)` from `src/startup.py` lines 135 to
140 (identical in `src/startup2.py` lines 134 to 139): stream the file in
`chunk_size`-byte chunks, feed each chunk to the hash object, return the hex
digest. -/
def sha256_of_file (digestFn : List Nat → String) (content : List Nat)
    (chunk_size : Nat) : String :=
  hexdigestOf digestFn ((readChunks chunk_size content).foldl hashUpdate (HashCtx.mk []))

/-- Computing the digest of the entire file content in one step: one update
with the whole content, then the hex digest. -/
def sha256_oneShot (digestFn : List Nat → String) (content : List Nat) : String :=
  hexdigestOf digestFn (hashUpdate (HashCtx.mk []) content)

theorem foldl_hashUpdate :
    ∀ (chunks : List (List Nat)) (h : HashCtx),
      (chunks.foldl hashUpdate h).fed = h.fed ++ chunks.flatten := by
  intro chunks
  induction chunks with
  | nil => intro h; simp [hashUpdate]
  | cons ch rest ih =>
      intro h
      simp [List.foldl_cons, ih, hashUpdate, List.append_assoc]

theorem readChunksAux_join (c : Nat) (hc : 0 < c) :
    ∀ (fuel : Nat) (content : List Nat), content.length ≤ fuel →
      (readChunksAux c fuel content).flatten = content := by
  intro fuel
  induction fuel with
  | zero =>
      intro content hlen
      have : content = [] := List.eq_nil_of_length_eq_zero (by omega)
      rw [this]
      simp [readChunksAux]
  | succ fuel ih =>
      intro content hlen
      cases content with
      | nil => simp [readChunksAux]
      | cons b rest =>
          have hc0 : ¬ c = 0 := by omega
          have hstep : readChunksAux c (fuel + 1) (b :: rest) =
              (b :: rest).take c :: readChunksAux c fuel ((b :: rest).drop c) := by
            simp [readChunksAux, hc0]
          rw [hstep]
          have hdrop : ((b :: rest).drop c).length ≤ fuel := by
            rw [List.length_drop]
            simp only [List.length_cons] at hlen ⊢
            omega
          rw [List.flatten_cons, ih ((b :: rest).drop c) hdrop]
          exact List.take_append_drop c (b :: rest)

/-- C10: for every file content and every positive chunk size, the streamed
chunked hashing of `sha256_of_file` returns the same hex digest as hashing
the entire content in one step — for every digest function, since the bytes
fed to the hash object coincide. -/
theorem c10_chunked_hash_eq_oneshot (digestFn : List Nat → String)
    (content : List Nat) (chunk_size : Nat) (hc : 0 < chunk_size) :
    sha256_of_file digestFn content chunk_size = sha256_oneShot digestFn content := by
  unfold sha256_of_file sha256_oneShot hexdigestOf
  refine congrArg digestFn ?_
  rw [foldl_hashUpdate]
  unfold readChunks
  rw [readChunksAux_join chunk_size hc content.length content (Nat.le_refl _)]
  simp [hashUpdate]

theorem c10_chunked_hash_eq_oneshot_w :
    0 < 2 ∧
      sha256_of_file (fun l => toString l.length) [10, 20, 30] 2 =
        sha256_oneShot (fun l => toString l.length) [10, 20, 30] :=
  ⟨by decide,
    c10_chunked_hash_eq_oneshot (fun l => toString l.length) [10, 20, 30] 2 (by decide)⟩

end StartupSpec
